import Mathlib

/-!
Shallow embedding of the session-management logic of the
`react-headless-auth` package: the `TokenStorage` persistence layer, the
`AuthClient` HTTP wrapper, and the `AuthProvider` session reconciliation
engine.

Network interaction is modelled by explicit response values (`NetResult`,
`FetchOutcome`, `Round`): each value describes what the server does for one
request, so engine functions are pure state-passing functions over
`EngineState`.  A thrown JavaScript error is modelled as a
`failure`/`err`/`netErr` value; a function returning a plain value (instead
of `Except`) mirrors source code whose body is wrapped in a catch-all
handler, so it can never throw.  The `transformUser` hook pipeline is
modelled by a single function `transform : User → Option User` whose result
feeds `result.user || userData` as in the source (`HookManager.trigger`
swallows handler exceptions, so hook calls never throw).
-/

namespace HeadlessAuth

/-- A user profile; opaque to the engine, modelled as a string identity. -/
abbrev User := String

/-- The three persisted keys of `TokenStorage`: `auth_access_token`,
`auth_refresh_token`, and the raw string stored under
`auth_cookies_blocked`. -/
structure StorageState where
  access_token : Option String
  refresh_token : Option String
  cookies_blocked : Option String
deriving DecidableEq

/-- Storage with no keys present (fresh browser / after `clear`). -/
def emptyStorage : StorageState := ⟨none, none, none⟩

/-- `StorageStrategy` from `core/types`. -/
inductive StorageStrategy where
  | cookieFirst
  | localStorageOnly
  | auto
deriving DecidableEq

/-- `TokenStorage.setTokens`: stores both tokens and writes the literal
string "true" under the cookies-blocked key.  The adapter holds exactly the
three modelled keys, all of which are written here. -/
def setTokens (_s : StorageState) (a r : String) : StorageState :=
  ⟨some a, some r, some "true"⟩

/-- `TokenStorage.clearTokens`, which delegates to
`LocalStorageAdapter.clear`: removes all three keys. -/
def clearTokens : StorageState := emptyStorage

/-- `TokenStorage.areCookiesBlocked`: the stored flag equals "true". -/
def areCookiesBlocked (s : StorageState) : Bool :=
  decide (s.cookies_blocked = some "true")

/-- `TokenStorage.shouldUseLocalStorage`. -/
def shouldUseLocalStorage (strat : StorageStrategy) (s : StorageState) : Bool :=
  if strat = .localStorageOnly then true
  else areCookiesBlocked s || s.access_token.isSome || s.refresh_token.isSome

/-- Helper for JavaScript `String.prototype.includes`: list prefix test. -/
def listIsPrefixOf : List Char → List Char → Bool
  | [], _ => true
  | _ :: _, [] => false
  | a :: as, b :: bs => a == b && listIsPrefixOf as bs

/-- Helper for JavaScript `String.prototype.includes`: substring test. -/
def listContainsSub (pat : List Char) : List Char → Bool
  | [] => pat.isEmpty
  | c :: rest => listIsPrefixOf pat (c :: rest) || listContainsSub pat rest

/-- JavaScript `msg.includes(pat)` on strings. -/
def msgIncludes (msg pat : String) : Bool :=
  listContainsSub pat.toList msg.toList

/-- Outcome of one raw `fetch`: network failure, or a response carrying an
HTTP status and a body (`none` models a body that fails JSON parsing). -/
inductive NetResult (α : Type) where
  | netErr
  | resp (status : Nat) (body : Option α)
deriving DecidableEq

/-- `response.ok`: status in the 2xx range. -/
def statusOk (status : Nat) : Bool :=
  200 ≤ status && status < 300

/-- Parsed JSON body of the refresh endpoint (fields may be absent). -/
structure RefreshBody where
  access_token : Option String
  refresh_token : Option String
deriving DecidableEq

/-- Parsed JSON body of the check-auth endpoint. -/
structure CheckBody where
  authenticated : Option Bool
deriving DecidableEq

/-- `AuthClient.refreshToken`: the body is one big try/catch returning a
plain boolean, so the embedding is a total function.  Returns the boolean
together with the storage state after the call (tokens are rotated when the
2xx body carries both tokens and localStorage mode is active). -/
def clientRefreshToken (strat : StorageStrategy) (s : StorageState)
    (net : NetResult RefreshBody) : Bool × StorageState :=
  let usingLS := shouldUseLocalStorage strat s
  if usingLS && s.refresh_token.isNone then (false, s)
  else
    match net with
    | .netErr => (false, s)
    | .resp status body =>
      if !statusOk status then (false, s)
      else
        match body with
        | none => (false, s)
        | some data =>
          match data.access_token, data.refresh_token with
          | some a, some r =>
            if usingLS then (true, setTokens s a r) else (true, s)
          | _, _ => (true, s)

/-- The Authorization header built by `AuthClient.refreshToken`: in
localStorage (fallback) mode it attaches the refresh token as bearer. -/
def refreshAuthHeader (strat : StorageStrategy) (s : StorageState) :
    Option String :=
  if shouldUseLocalStorage strat s then
    match s.refresh_token with
    | some r => some ("Bearer " ++ r)
    | none => none
  else none

/-- `AuthClient.checkAuth`: try/catch around `request`, so total.  A thrown
`request` (network error, non-2xx, or 2xx body that fails JSON parsing)
yields `false`; a parsed 2xx body yields `authenticated ?? true`. -/
def clientCheckAuth (net : NetResult CheckBody) : Bool :=
  match net with
  | .netErr => false
  | .resp status body =>
    if !statusOk status then false
    else
      match body with
      | none => false
      | some data => data.authenticated.getD true

/-- The Authorization header built by `AuthClient.createHeaders` for
requests marked `includeAuth` (such as `getUser`): in localStorage mode it
attaches the access token as bearer. -/
def getUserAuthHeader (strat : StorageStrategy) (s : StorageState) :
    Option String :=
  if shouldUseLocalStorage strat s then
    match s.access_token with
    | some a => some ("Bearer " ++ a)
    | none => none
  else none

/-- A credential pair as produced by login/signup/OAuth. -/
structure Tokens where
  access_token : String
  refresh_token : String
deriving DecidableEq

/-- The `AuthProvider` React state plus its two refs (`pendingTokens`,
storage), represented as one record mutated by pure state passing. -/
structure EngineState where
  isAuthenticated : Bool
  loading : Bool
  isRefreshingToken : Bool
  user : Option User
  pendingTokens : Option Tokens
  storage : StorageState
deriving DecidableEq

/-- `AuthProvider.refreshAccessToken`.  When a refresh is already in
flight, the source waits 100 ms and returns the current `isAuthenticated`
without a network call; otherwise it runs `client.refreshToken` and copies
the boolean into `isAuthenticated`.  Hook triggers cannot throw (handler
exceptions are swallowed by `HookManager.trigger`), so the catch branch of
the source is unreachable in this model. -/
def refreshAccessToken (strat : StorageStrategy) (st : EngineState)
    (net : NetResult RefreshBody) : Bool × EngineState :=
  if st.isRefreshingToken then (st.isAuthenticated, st)
  else
    let result := clientRefreshToken strat st.storage net
    (result.1,
      { st with isAuthenticated := result.1, storage := result.2,
                isRefreshingToken := false })

/-- Outcome of one `client.getUser` call: the profile, or the message of
the thrown `Error` (the source dispatches on `error.message.includes`). -/
inductive FetchOutcome where
  | success (u : User)
  | failure (msg : String)
deriving DecidableEq

/-- What the server does during one attempt of the profile fetch: the
`getUser` outcome, plus the refresh-endpoint response used if this attempt
falls into the refresh branch. -/
structure Round where
  fetch : FetchOutcome
  refreshNet : NetResult RefreshBody
deriving DecidableEq

/-- `AuthProvider.fetchUserData`.  Each recursive attempt consumes one
`Round`; the returned `Nat` counts the `getUser` network calls issued.  An
empty round list means the run was cut off before finishing (result
`none`), which can only be observed when the source would keep recursing.
Branches, in source order: success (discard pending / clear storage when
cookie mode is confirmed), message containing "401" with a pending pair
(persist pending, retry), message containing "401" or "422" (refresh and
retry on refresh success), any other failure (profile set absent). -/
def fetchUserData (strat : StorageStrategy) (transform : User → Option User) :
    List Round → EngineState → Option EngineState × Nat
  | [], _ => (none, 0)
  | r :: rest, st =>
    let hasLS := shouldUseLocalStorage strat st.storage
    match r.fetch with
    | .success u =>
      let finalUser := (transform u).getD u
      let st1 := { st with user := some finalUser }
      if st.pendingTokens.isSome then
        (some { st1 with pendingTokens := none, storage := clearTokens }, 1)
      else if !hasLS then
        (some { st1 with storage := clearTokens }, 1)
      else
        (some st1, 1)
    | .failure msg =>
      match st.pendingTokens with
      | some p =>
        if msgIncludes msg "401" then
          let st1 := { st with
            storage := setTokens st.storage p.access_token p.refresh_token,
            pendingTokens := none }
          let pr := fetchUserData strat transform rest st1
          (pr.1, pr.2 + 1)
        else if msgIncludes msg "401" || msgIncludes msg "422" then
          let rr := refreshAccessToken strat st r.refreshNet
          if rr.1 then
            let pr := fetchUserData strat transform rest rr.2
            (pr.1, pr.2 + 1)
          else
            (some { rr.2 with user := none }, 1)
        else
          (some { st with user := none }, 1)
      | none =>
        if msgIncludes msg "401" || msgIncludes msg "422" then
          let rr := refreshAccessToken strat st r.refreshNet
          if rr.1 then
            let pr := fetchUserData strat transform rest rr.2
            (pr.1, pr.2 + 1)
          else
            (some { rr.2 with user := none }, 1)
        else
          (some { st with user := none }, 1)

/-- Tail of `AuthProvider.checkAuth` after the pending-pair guard and the
smart-refresh step: run `client.checkAuth`, then either fetch the profile
or refresh-and-retry, clearing everything when the refresh also fails. -/
def checkAuthRest (strat : StorageStrategy) (transform : User → Option User)
    (st : EngineState) (checkNet : NetResult CheckBody)
    (postNet : NetResult RefreshBody) (rounds : List Round) :
    Option EngineState :=
  if clientCheckAuth checkNet then
    let pr := fetchUserData strat transform rounds
      { st with isAuthenticated := true }
    pr.1.map fun st2 => { st2 with loading := false }
  else
    let rr := refreshAccessToken strat st postNet
    if rr.1 then
      let pr := fetchUserData strat transform rounds
        { rr.2 with isAuthenticated := true }
      pr.1.map fun st2 => { st2 with loading := false }
    else
      some { rr.2 with isAuthenticated := false, user := none,
                       storage := clearTokens, loading := false }

/-- `AuthProvider.checkAuth`.  `preNet` feeds the smart-refresh step (taken
when localStorage mode is active, the access token is absent and a refresh
token is present); `checkNet` feeds `client.checkAuth`; `postNet` feeds the
retry refresh; `rounds` feeds the profile fetch.  The `finally` clause sets
`loading := false` on every exit. -/
def checkAuth (strat : StorageStrategy) (transform : User → Option User)
    (st : EngineState) (preNet : NetResult RefreshBody)
    (checkNet : NetResult CheckBody) (postNet : NetResult RefreshBody)
    (rounds : List Round) : Option EngineState :=
  if st.pendingTokens.isSome then
    some { st with loading := false }
  else if shouldUseLocalStorage strat st.storage
      && st.storage.access_token.isNone
      && st.storage.refresh_token.isSome then
    let rr := refreshAccessToken strat st preNet
    if !rr.1 then
      some { rr.2 with isAuthenticated := false, user := none,
                       storage := clearTokens, loading := false }
    else
      checkAuthRest strat transform rr.2 checkNet postNet rounds
  else
    checkAuthRest strat transform st checkNet postNet rounds

/-- `AuthProvider.completeAuthentication`: mark the pair pending, set
`isAuthenticated := true`, then run the profile fetch. -/
def completeAuthentication (strat : StorageStrategy)
    (transform : User → Option User) (tokens : Tokens) (st : EngineState)
    (rounds : List Round) : Option EngineState :=
  (fetchUserData strat transform rounds
    { st with pendingTokens := some tokens, isAuthenticated := true }).1

/-- The `AuthResponse` JSON returned by `client.login` / `client.signup`. -/
structure AuthResponse where
  access_token : Option String
  refresh_token : Option String
  user : Option User
  message : Option String
deriving DecidableEq

/-- Outcome of the `client.login` (or `client.signup`) network call. -/
inductive LoginNet where
  | ok (response : AuthResponse)
  | err (msg : String)
deriving DecidableEq

/-- `AuthProvider.login` (and structurally `signup`): clear storage and the
pending marker first, call the client, complete authentication when the
response carries both tokens.  The boolean is the `success` field of the
returned result object; on error the source sets `isAuthenticated := false`
but leaves `user` untouched. -/
def login (strat : StorageStrategy) (transform : User → Option User)
    (st : EngineState) (net : LoginNet) (rounds : List Round) :
    Option (EngineState × Bool) :=
  let st0 := { st with storage := clearTokens, pendingTokens := none }
  match net with
  | .err _ => some ({ st0 with isAuthenticated := false }, false)
  | .ok response =>
    match response.access_token, response.refresh_token with
    | some a, some r =>
      (completeAuthentication strat transform ⟨a, r⟩ st0 rounds).map
        fun st1 => (st1, true)
    | _, _ => some (st0, true)

/-- Outcome of the `client.logout` network call. -/
inductive LogoutNet where
  | ok
  | err (msg : String)
deriving DecidableEq

/-- `AuthProvider.logout`.  On success: authenticated false, user cleared,
storage cleared, pending cleared.  If `client.logout` throws, control jumps
to the catch block, which clears storage and the pending marker only — the
`setIsAuthenticated(false)` / `setUser(null)` calls of the try block are
never reached. -/
def logout (st : EngineState) (net : LogoutNet) : EngineState × Bool :=
  match net with
  | .ok =>
    ({ st with isAuthenticated := false, user := none,
               storage := clearTokens, pendingTokens := none }, true)
  | .err _ =>
    ({ st with storage := clearTokens, pendingTokens := none }, false)

/-- The observable operations of `TokenStorage` other than `clearTokens`,
for stating the fallback ratchet over arbitrary interleavings. -/
inductive StorageOp where
  | set (a r : String)
  | getAccess
  | getRefresh
  | readFlag
  | queryMode
deriving DecidableEq

/-- Effect of one storage operation on the persisted state: only
`setTokens` writes; every read leaves the state unchanged. -/
def applyOp (s : StorageState) : StorageOp → StorageState
  | .set a r => setTokens s a r
  | .getAccess => s
  | .getRefresh => s
  | .readFlag => s
  | .queryMode => s

/-- Run a sequence of storage operations. -/
def applyOps (s : StorageState) (ops : List StorageOp) : StorageState :=
  ops.foldl applyOp s

/-- A network error makes `clientRefreshToken` report failure and leave
storage unchanged, in both the short-circuit and the fetch branch. -/
theorem clientRefreshToken_netErr (strat : StorageStrategy)
    (s : StorageState) : clientRefreshToken strat s .netErr = (false, s) := by
  unfold clientRefreshToken
  cases h : shouldUseLocalStorage strat s && s.refresh_token.isNone <;>
    simp [h]

/-- Every storage operation other than `clear` preserves the
cookies-blocked flag once it is set. -/
theorem applyOps_preserves_flag (ops : List StorageOp) :
    ∀ s : StorageState, areCookiesBlocked s = true →
      areCookiesBlocked (applyOps s ops) = true := by
  induction ops with
  | nil => intro s h; exact h
  | cons op rest ih =>
    intro s h
    cases op with
    | set a r =>
      exact ih (setTokens s a r) (by simp [setTokens, areCookiesBlocked])
    | getAccess => exact ih s h
    | getRefresh => exact ih s h
    | readFlag => exact ih s h
    | queryMode => exact ih s h

/-- Claim C1 (code evaluated at the failing input): with the engine
authenticated and holding a profile, a server logout failure (thrown
TransportError) leaves `isAuthenticated = true` and the profile in place
after `logout` returns; only storage and the pending pair are cleared.
This contradicts the documented intent that local cleanup
(`authenticated=false`, profile absent) is unconditional: the catch block
of the source never reaches `setIsAuthenticated(false)` / `setUser(null)`. -/
theorem logout_server_error_keeps_auth_and_profile :
    logout ⟨true, false, false, some "alice", some ⟨"a", "b"⟩,
            ⟨some "x", some "y", some "true"⟩⟩ (.err "network down") =
      (⟨true, false, false, some "alice", none, emptyStorage⟩, false) := by
  rfl

/-- Claim C2 (counterexample): a profile fetch failing with status 422
while a pending credential pair exists does NOT persist the pending pair —
the source's pending branch tests only for "401", so the 422 failure falls
into the refresh branch, the refresh fails, and afterwards storage is still
empty (`areCookiesBlocked` stays false) while the pending marker is still
set.  The claim asserts the pair is persisted for 401 or 422 alike. -/
theorem fetchUserData_422_with_pending_not_persisted :
    fetchUserData .cookieFirst (fun u => some u)
        [⟨.failure "Request failed: 422", .netErr⟩]
        ⟨true, false, false, none, some ⟨"a", "b"⟩, emptyStorage⟩ =
      (some ⟨false, false, false, none, some ⟨"a", "b"⟩, emptyStorage⟩, 1) ∧
    areCookiesBlocked emptyStorage = false := by
  exact ⟨by rfl, by rfl⟩

/-- Claim C3 (counterexample): the `login` error path sets
`isAuthenticated := false` but leaves the previously stored profile in
place, so an operation exit rests at `authenticated = false` with a
non-absent profile, violating the claimed invariant. -/
theorem login_error_leaves_profile_with_auth_false :
    login .cookieFirst (fun u => some u)
        ⟨true, false, false, some "alice", none,
          ⟨some "x", some "y", some "true"⟩⟩
        (.err "invalid credentials") [] =
      some (⟨false, false, false, some "alice", none, emptyStorage⟩, false) := by
  rfl

/-- Claim C3 (amended): the exits that the engine itself drives to
`authenticated = false` with full cleanup do restore the invariant — the
logout success path always leaves `authenticated = false` with the profile
absent, from any prior state. -/
theorem logout_success_establishes_invariant (st : EngineState) :
    (logout st .ok).1.isAuthenticated = false ∧
    (logout st .ok).1.user = none := by
  exact ⟨rfl, rfl⟩

/-- Claim C4 (counterexample): when the session check succeeds but the
profile fetch fails with an error that is neither 401 nor 422 (here a 500),
`checkAuth` completes resting at `authenticated = true` with the profile
absent — the failure is unrecoverable yet the binding does not surface
`authenticated = false`. -/
theorem checkAuth_error500_rests_auth_true_without_profile :
    checkAuth .cookieFirst (fun u => some u)
        ⟨false, true, false, none, none, emptyStorage⟩
        .netErr (.resp 200 (some ⟨some true⟩)) .netErr
        [⟨.failure "Request failed: 500", .netErr⟩] =
      some ⟨true, false, false, none, none, emptyStorage⟩ := by
  rfl

/-- Claim C5 (counterexample): a single top-level `fetchUserData`
invocation, starting with no pending pair, issues three `getUser` network
calls when the server answers 401 twice with the refresh endpoint
succeeding each time — the non-pending branch retried twice, so no
fixed two-call bound (initial call plus at most one retry) holds. -/
theorem fetchUserData_three_calls_across_one_invocation :
    (fetchUserData .cookieFirst (fun u => some u)
        [⟨.failure "Request failed: 401", .resp 200 (some ⟨none, none⟩)⟩,
         ⟨.failure "Request failed: 401", .resp 200 (some ⟨none, none⟩)⟩,
         ⟨.success "alice", .netErr⟩]
        ⟨false, true, false, none, none, emptyStorage⟩).2 = 3 ∧
    ¬ ((fetchUserData .cookieFirst (fun u => some u)
        [⟨.failure "Request failed: 401", .resp 200 (some ⟨none, none⟩)⟩,
         ⟨.failure "Request failed: 401", .resp 200 (some ⟨none, none⟩)⟩,
         ⟨.success "alice", .netErr⟩]
        ⟨false, true, false, none, none, emptyStorage⟩).2 ≤ 2) := by
  exact ⟨by rfl, by decide⟩

/-- Claim C8 (counterexample): `clientRefreshToken` returns `false` for a
2xx response whose body fails JSON parsing, refuting "returns true if and
only if the HTTP response is 2xx". -/
theorem refreshToken_2xx_parse_error_returns_false :
    clientRefreshToken .cookieFirst emptyStorage (.resp 200 none) =
      (false, emptyStorage) ∧ statusOk 200 = true := by
  exact ⟨by rfl, by rfl⟩


/-- Claim C6: when the profile fetch succeeds on the first try while a
pending credential pair exists, the pair is discarded and storage is
cleared, so afterwards storage is empty and the fallback flag is false. -/
theorem fetchUserData_pending_first_try_success (strat : StorageStrategy)
    (transform : User → Option User) (st : EngineState) (p : Tokens)
    (u : User) (rNet : NetResult RefreshBody) (rest : List Round)
    (hp : st.pendingTokens = some p) :
    fetchUserData strat transform (⟨.success u, rNet⟩ :: rest) st =
      (some { st with user := some ((transform u).getD u),
                      pendingTokens := none, storage := clearTokens }, 1) ∧
    areCookiesBlocked clearTokens = false := by
  constructor
  · simp only [fetchUserData, hp, Option.isSome_some, if_true]
  · rfl

/-- Claim C6 (witness). -/
theorem fetchUserData_pending_first_try_success_witness :
    fetchUserData .cookieFirst (fun u => some u)
        [⟨.success "alice", .netErr⟩]
        ⟨true, false, false, none, some ⟨"a", "b"⟩, emptyStorage⟩ =
      (some ⟨true, false, false, some "alice", none, emptyStorage⟩, 1) :=
  (fetchUserData_pending_first_try_success .cookieFirst (fun u => some u)
      ⟨true, false, false, none, some ⟨"a", "b"⟩, emptyStorage⟩
      ⟨"a", "b"⟩ "alice" .netErr [] rfl).1

/-- Claim C2 (amended): only a 401 failure with a pending pair persists the
pair into storage; the pending marker is discarded before the single
structural retry, the persisted storage reports fallback mode active, and
the retried `getUser` call carries the now-persisted access token as
bearer. -/
theorem fetchUserData_401_pending_persists_and_retries
    (strat : StorageStrategy) (transform : User → Option User)
    (st : EngineState) (p : Tokens) (msg : String)
    (rNet : NetResult RefreshBody) (rest : List Round)
    (hp : st.pendingTokens = some p)
    (hmsg : msgIncludes msg "401" = true) :
    fetchUserData strat transform (⟨.failure msg, rNet⟩ :: rest) st =
      ((fetchUserData strat transform rest
          { st with
            storage := setTokens st.storage p.access_token p.refresh_token,
            pendingTokens := none }).1,
       (fetchUserData strat transform rest
          { st with
            storage := setTokens st.storage p.access_token p.refresh_token,
            pendingTokens := none }).2 + 1) ∧
    shouldUseLocalStorage strat
        (setTokens st.storage p.access_token p.refresh_token) = true ∧
    getUserAuthHeader strat
        (setTokens st.storage p.access_token p.refresh_token) =
      some ("Bearer " ++ p.access_token) := by
  refine ⟨?_, ?_, ?_⟩
  · simp only [fetchUserData, hp, hmsg, if_true]
  · simp [shouldUseLocalStorage, setTokens, areCookiesBlocked]
  · simp [getUserAuthHeader, shouldUseLocalStorage, setTokens,
      areCookiesBlocked]

/-- Claim C2 (witness). -/
theorem fetchUserData_401_pending_persists_and_retries_witness :
    getUserAuthHeader .cookieFirst (setTokens emptyStorage "a" "b") =
      some ("Bearer " ++ "a") :=
  (fetchUserData_401_pending_persists_and_retries .cookieFirst
      (fun u => some u) ⟨true, false, false, none, some ⟨"a", "b"⟩,
        emptyStorage⟩ ⟨"a", "b"⟩ "Request failed: 401" .netErr []
      rfl (by decide)).2.2


/-- Claim C5 (amended): the profile fetch issues at most one `getUser`
network call per available server response, so a run over any finite
response sequence terminates with at most that many calls; no fixed
constant bound independent of the response sequence exists. -/
theorem fetchUserData_calls_le_responses (strat : StorageStrategy)
    (transform : User → Option User) :
    ∀ (rounds : List Round) (st : EngineState),
      (fetchUserData strat transform rounds st).2 ≤ rounds.length := by
  intro rounds
  induction rounds with
  | nil =>
    intro st
    simp [fetchUserData]
  | cons r rest ih =>
    intro st
    obtain ⟨f, rn⟩ := r
    cases f with
    | success u =>
      simp only [fetchUserData, List.length_cons]
      split
      · omega
      · split
        · omega
        · omega
    | failure msg =>
      simp only [fetchUserData, List.length_cons]
      cases hpend : st.pendingTokens with
      | some p =>
        simp only []
        split
        · have := ih { st with
            storage := setTokens st.storage p.access_token p.refresh_token,
            pendingTokens := none }
          omega
        · split
          · split
            · have := ih (refreshAccessToken strat st rn).2
              omega
            · omega
          · omega
      | none =>
        simp only []
        split
        · split
          · have := ih (refreshAccessToken strat st rn).2
            omega
          · omega
        · omega

/-- Claim C9: once `setTokens` has been written, any interleaving of
non-clear storage operations leaves `shouldUseLocalStorage` true, for every
strategy including cookie-first. -/
theorem setTokens_fallback_ratchet (strat : StorageStrategy)
    (s : StorageState) (a r : String) (ops : List StorageOp) :
    shouldUseLocalStorage strat (applyOps (setTokens s a r) ops) = true := by
  have hflag := applyOps_preserves_flag ops (setTokens s a r)
    (by simp [setTokens, areCookiesBlocked])
  unfold shouldUseLocalStorage
  split
  · rfl
  · simp [hflag]

/-- Claim C10: `clientCheckAuth` is a total boolean function of the
response (the source catches every thrown error): network errors and
non-2xx statuses yield `false`, a 2xx body that fails JSON parsing yields
`false`, and a parsed 2xx body lacking the `authenticated` field defaults
to `true`. -/
theorem clientCheckAuth_spec :
    (clientCheckAuth .netErr = false) ∧
    (∀ (status : Nat) (body : Option CheckBody), statusOk status = false →
        clientCheckAuth (.resp status body) = false) ∧
    (∀ status : Nat, statusOk status = true →
        clientCheckAuth (.resp status none) = false) ∧
    (∀ (status : Nat) (data : CheckBody), statusOk status = true →
        data.authenticated = none →
        clientCheckAuth (.resp status (some data)) = true) := by
  refine ⟨rfl, ?_, ?_, ?_⟩
  · intro status body h
    simp [clientCheckAuth, h]
  · intro status h
    simp [clientCheckAuth, h]
  · intro status data h hauth
    simp [clientCheckAuth, h, hauth]

/-- Claim C10 (witness). -/
theorem clientCheckAuth_spec_witness :
    clientCheckAuth (.resp 204 (some ⟨none⟩)) = true :=
  clientCheckAuth_spec.2.2.2 204 ⟨none⟩ (by decide) rfl


/-- Claim C4 (amended): when the session check reports unauthenticated and
the retry refresh also fails (here: refresh network errors, with no refresh
already in flight and no pending pair), `checkAuth` does surface
`authenticated = false` with a cleared profile, cleared storage, and
loading finished — the failure to do so is confined to the profile-fetch
failure paths. -/
theorem checkAuth_failed_check_failed_refresh_clears
    (strat : StorageStrategy) (transform : User → Option User)
    (st : EngineState) (checkNet : NetResult CheckBody)
    (rounds : List Round)
    (hp : st.pendingTokens = none)
    (hr : st.isRefreshingToken = false)
    (hc : clientCheckAuth checkNet = false) :
    checkAuth strat transform st .netErr checkNet .netErr rounds =
      some ⟨false, false, false, none, none, emptyStorage⟩ := by
  obtain ⟨auth, load, refr, usr, pend, stor⟩ := st
  simp only at hp hr
  subst hp
  subst hr
  unfold checkAuth
  simp only [Option.isSome_none, Bool.false_eq_true, if_false]
  split
  · unfold refreshAccessToken
    simp only [if_false, clientRefreshToken_netErr]
    rfl
  · unfold checkAuthRest
    simp only [hc, Bool.false_eq_true, if_false]
    unfold refreshAccessToken
    simp only [if_false, clientRefreshToken_netErr]
    rfl

/-- Claim C4 (witness). -/
theorem checkAuth_failed_check_failed_refresh_clears_witness :
    checkAuth .cookieFirst (fun u => some u)
        ⟨true, true, false, some "alice", none, ⟨some "x", none, none⟩⟩
        .netErr .netErr .netErr [] =
      some ⟨false, false, false, none, none, emptyStorage⟩ :=
  checkAuth_failed_check_failed_refresh_clears .cookieFirst (fun u => some u)
    ⟨true, true, false, some "alice", none, ⟨some "x", none, none⟩⟩
    .netErr [] rfl rfl rfl

/-- Claim C8 (amended): `clientRefreshToken` is a total boolean function
(the source catches every thrown error).  It returns `false` on a network
error, on a non-2xx status, on a 2xx body that fails JSON parsing, and in
fallback mode with no stored refresh token (where no request is issued at
all); it returns `true` exactly when a request is issued, the status is
2xx, and the body parses.  In fallback mode the refresh token — not the
access token — is attached as the bearer header. -/
theorem refreshToken_boolean_characterization (strat : StorageStrategy)
    (s : StorageState) :
    ((clientRefreshToken strat s .netErr).1 = false) ∧
    (∀ (status : Nat) (body : Option RefreshBody), statusOk status = false →
        (clientRefreshToken strat s (.resp status body)).1 = false) ∧
    (∀ status : Nat, statusOk status = true →
        (clientRefreshToken strat s (.resp status none)).1 = false) ∧
    (∀ (status : Nat) (data : RefreshBody), statusOk status = true →
        (shouldUseLocalStorage strat s = false ∨
          s.refresh_token.isSome = true) →
        (clientRefreshToken strat s (.resp status (some data))).1 = true) ∧
    (∀ net : NetResult RefreshBody, shouldUseLocalStorage strat s = true →
        s.refresh_token = none → clientRefreshToken strat s net = (false, s)) ∧
    (∀ r : String, shouldUseLocalStorage strat s = true →
        s.refresh_token = some r →
        refreshAuthHeader strat s = some ("Bearer " ++ r)) := by
  refine ⟨?_, ?_, ?_, ?_, ?_, ?_⟩
  · rw [clientRefreshToken_netErr]
  · intro status body h
    unfold clientRefreshToken
    cases hg : shouldUseLocalStorage strat s && s.refresh_token.isNone <;>
      simp [hg, h]
  · intro status h
    unfold clientRefreshToken
    cases hg : shouldUseLocalStorage strat s && s.refresh_token.isNone <;>
      simp [hg, h]
  · intro status data h hnc
    unfold clientRefreshToken
    have hg : (shouldUseLocalStorage strat s && s.refresh_token.isNone) =
        false := by
      rcases hnc with hnc | hnc
      · simp [hnc]
      · have hnn : s.refresh_token.isNone = false := by
          cases hx : s.refresh_token
          · rw [hx] at hnc
            simp at hnc
          · simp
        simp [hnn]
    simp only [hg, Bool.false_eq_true, if_false, h, Bool.not_true]
    cases hacc : data.access_token with
    | none => simp [hacc]
    | some a =>
      cases href : data.refresh_token with
      | none => simp [hacc, href]
      | some b =>
        simp only [hacc, href]
        split
        · rfl
        · rfl
  · intro net hls hnone
    unfold clientRefreshToken
    simp [hls, hnone]
  · intro r hls hsome
    unfold refreshAuthHeader
    simp [hls, hsome]

/-- Claim C8 (witness). -/
theorem refreshToken_boolean_characterization_witness :
    refreshAuthHeader .localStorageOnly ⟨none, some "r", none⟩ =
      some ("Bearer " ++ "r") :=
  (refreshToken_boolean_characterization .localStorageOnly
      ⟨none, some "r", none⟩).2.2.2.2.2 "r" rfl rfl

end HeadlessAuth
